import Mathlib

/-!
Verification of the constant data in `src/constants_64bit.rs` of
curve25519-dalek: the field-element and point constants of Curve25519 /
Ed25519 in the 64-bit (five 51-bit limb) backend.

Each `FieldElement64` limb array `[l0, l1, l2, l3, l4]` denotes the integer
`l0 + l1*2^51 + l2*2^102 + l3*2^153 + l4*2^204`, read modulo
`p = 2^255 - 19`.  The constants below are transcribed limb for limb from
the Rust source.
-/

set_option maxRecDepth 100000

namespace Curve25519

/-- The field prime `p = 2^255 - 19`. -/
def p : ℕ := 2 ^ 255 - 19

/-- The field prime as an integer, for signed congruences. -/
def pInt : ℤ := 2 ^ 255 - 19

/-- A `FieldElement64`: five unsigned limbs in radix `2^51`, mirroring the
Rust `FieldElement64([l0, l1, l2, l3, l4])`. -/
structure FieldElement64 where
  l0 : ℕ
  l1 : ℕ
  l2 : ℕ
  l3 : ℕ
  l4 : ℕ
deriving DecidableEq

/-- The integer denoted by a limb array:
`l0 + l1*2^51 + l2*2^102 + l3*2^153 + l4*2^204`. -/
def FieldElement64.val (x : FieldElement64) : ℕ :=
  x.l0 + x.l1 * 2 ^ 51 + x.l2 * 2 ^ 102 + x.l3 * 2 ^ 153 + x.l4 * 2 ^ 204

/-- The denoted integer, as an element of `ℤ`. -/
def FieldElement64.ival (x : FieldElement64) : ℤ :=
  Int.ofNat x.val

/-- Edwards `d` value, equal to `-121665/121666 mod p`. -/
def EDWARDS_D : FieldElement64 :=
  ⟨929955233495203, 466365720129213, 1662059464998953, 2033849074728123,
   1442794654840575⟩

/-- Edwards `2*d` value, equal to `2*(-121665/121666) mod p`. -/
def EDWARDS_D2 : FieldElement64 :=
  ⟨1859910466990425, 932731440258426, 1072319116312658, 1815898335770999,
   633789495995903⟩

/-- `sqrt(a*d - 1)`, where `a = -1 (mod p)` and `d` is the Edwards parameter. -/
def SQRT_AD_MINUS_ONE : FieldElement64 :=
  ⟨2241493124984347, 425987919032274, 2207028919301688, 1220490630685848,
   974799131293748⟩

/-- `1/sqrt(a-d)`, where `a = -1 (mod p)` and `d` is the Edwards parameter. -/
def INVSQRT_A_MINUS_D : FieldElement64 :=
  ⟨278908739862762, 821645201101625, 8113234426968, 1777959178193151,
   2118520810568447⟩

/-- Precomputed value of one of the square roots of `-1 (mod p)`. -/
def SQRT_M1 : FieldElement64 :=
  ⟨1718705420411056, 234908883556509, 2233514472574048, 2117202627021982,
   765476049583133⟩

/-- In Montgomery form `y² = x³+Ax²+x`, Curve25519 has `A = 486662`. -/
def MONTGOMERY_A : FieldElement64 := ⟨486662, 0, 0, 0, 0⟩

/-- `APLUS2_OVER_FOUR` is `(A+2)/4`. -/
def APLUS2_OVER_FOUR : FieldElement64 := ⟨121666, 0, 0, 0, 0⟩

/-- `SQRT_MINUS_APLUS2` is `sqrt(-486664)`. -/
def SQRT_MINUS_APLUS2 : FieldElement64 :=
  ⟨1693982333959686, 608509411481997, 2235573344831311, 947681270984193,
   266558006233600⟩

/-- An `ExtendedPoint`: extended twisted Edwards coordinates `(X, Y, Z, T)`,
mirroring the Rust struct. -/
structure ExtendedPoint where
  X : FieldElement64
  Y : FieldElement64
  Z : FieldElement64
  T : FieldElement64
deriving DecidableEq

/-- The Ed25519 basepoint, limb for limb from the source. -/
def ED25519_BASEPOINT_POINT : ExtendedPoint :=
  { X := ⟨1738742601995546, 1146398526822698, 2070867633025821,
          562264141797630, 587772402128613⟩
    Y := ⟨1801439850948184, 1351079888211148, 450359962737049,
          900719925474099, 1801439850948198⟩
    Z := ⟨1, 0, 0, 0, 0⟩
    T := ⟨1841354044333475, 16398895984059, 755974180946558,
          900171276175154, 1821297809914039⟩ }

/-- The 8-torsion subgroup table: the `i`th element is `i*P` for a point `P`
of order 8, limb for limb from the source. -/
def EIGHT_TORSION : Fin 8 → ExtendedPoint :=
  ![{ X := ⟨0, 0, 0, 0, 0⟩
      Y := ⟨1, 0, 0, 0, 0⟩
      Z := ⟨1, 0, 0, 0, 0⟩
      T := ⟨0, 0, 0, 0, 0⟩ },
    { X := ⟨358744748052810, 1691584618240980, 977650209285361,
            1429865912637724, 560044844278676⟩
      Y := ⟨84926274344903, 473620666599931, 365590438845504,
            1028470286882429, 2146499180330972⟩
      Z := ⟨1, 0, 0, 0, 0⟩
      T := ⟨1448326834587521, 1857896831960481, 1093722731865333,
            1677408490711241, 1915505153018406⟩ },
    { X := ⟨533094393274173, 2016890930128738, 18285341111199,
            134597186663265, 1486323764102114⟩
      Y := ⟨0, 0, 0, 0, 0⟩
      Z := ⟨1, 0, 0, 0, 0⟩
      T := ⟨0, 0, 0, 0, 0⟩ },
    { X := ⟨358744748052810, 1691584618240980, 977650209285361,
            1429865912637724, 560044844278676⟩
      Y := ⟨2166873539340326, 1778179147085316, 1886209374839743,
            1223329526802818, 105300633354275⟩
      Z := ⟨1, 0, 0, 0, 0⟩
      T := ⟨803472979097708, 393902981724766, 1158077081819914,
            574391322974006, 336294660666841⟩ },
    { X := ⟨0, 0, 0, 0, 0⟩
      Y := ⟨2251799813685228, 2251799813685247, 2251799813685247,
            2251799813685247, 2251799813685247⟩
      Z := ⟨1, 0, 0, 0, 0⟩
      T := ⟨0, 0, 0, 0, 0⟩ },
    { X := ⟨1893055065632419, 560215195444267, 1274149604399886,
            821933901047523, 1691754969406571⟩
      Y := ⟨2166873539340326, 1778179147085316, 1886209374839743,
            1223329526802818, 105300633354275⟩
      Z := ⟨1, 0, 0, 0, 0⟩
      T := ⟨1448326834587521, 1857896831960481, 1093722731865333,
            1677408490711241, 1915505153018406⟩ },
    { X := ⟨1718705420411056, 234908883556509, 2233514472574048,
            2117202627021982, 765476049583133⟩
      Y := ⟨0, 0, 0, 0, 0⟩
      Z := ⟨1, 0, 0, 0, 0⟩
      T := ⟨0, 0, 0, 0, 0⟩ },
    { X := ⟨1893055065632419, 560215195444267, 1274149604399886,
            821933901047523, 1691754969406571⟩
      Y := ⟨84926274344903, 473620666599931, 365590438845504,
            1028470286882429, 2146499180330972⟩
      Z := ⟨1, 0, 0, 0, 0⟩
      T := ⟨803472979097708, 393902981724766, 1158077081819914,
            574391322974006, 336294660666841⟩ }]

/-- A point with integer coordinates `(X, Y, Z, T)`, the denotation of an
`ExtendedPoint`, on which the group law is computed modulo `p`. -/
structure ExtPt where
  X : ℤ
  Y : ℤ
  Z : ℤ
  T : ℤ
deriving DecidableEq

/-- The integers denoted by the four limb arrays of an `ExtendedPoint`. -/
def ExtendedPoint.toExt (P : ExtendedPoint) : ExtPt :=
  ⟨P.X.ival, P.Y.ival, P.Z.ival, P.T.ival⟩

/-- The twisted Edwards curve equation `-x² + y² = 1 + d·x²·y²` with
`d = EDWARDS_D`, homogenized for `x = X/Z`, `y = Y/Z`:
`(-X² + Y²)·Z² ≡ Z⁴ + d·X²·Y² (mod p)`. -/
def onCurve (P : ExtPt) : Prop :=
  ((-(P.X ^ 2) + P.Y ^ 2) * P.Z ^ 2
      - (P.Z ^ 4 + EDWARDS_D.ival * P.X ^ 2 * P.Y ^ 2)) % pInt = 0

/-- The auxiliary-coordinate invariant `X·Y ≡ Z·T (mod p)`. -/
def tInvariant (P : ExtPt) : Prop :=
  (P.X * P.Y - P.Z * P.T) % pInt = 0

/-- `Z` is nonzero modulo `p`. -/
def zNonzero (P : ExtPt) : Prop :=
  P.Z % pInt ≠ 0

/-- A well-formed extended point: on the curve, with the `T` invariant and
a nonzero `Z`. -/
def wellFormed (P : ExtPt) : Prop :=
  onCurve P ∧ tInvariant P ∧ zNonzero P

/-- Projective-ratio equality of two extended points:
`X₁·Z₂ ≡ X₂·Z₁` and `Y₁·Z₂ ≡ Y₂·Z₁ (mod p)`. -/
def extEq (P Q : ExtPt) : Prop :=
  (P.X * Q.Z - Q.X * P.Z) % pInt = 0 ∧ (P.Y * Q.Z - Q.Y * P.Z) % pInt = 0

/-- The identity element `(0, 1, 1, 0)`. -/
def identityExt : ExtPt := ⟨0, 1, 1, 0⟩

/-- Modelled from the spec: the unified twisted Edwards addition on extended
coordinates.  The `add` implementation (`edwards.rs`) is not among the
provided sources; the spec states that addition uses the unified
("complete") twisted-Edwards formulas, valid for all inputs including the
identity and doublings, parameterized by the precomputed `2d` constant.
This is the standard `a = -1` extended-coordinates addition:
`A = (Y₁-X₁)(Y₂-X₂)`, `B = (Y₁+X₁)(Y₂+X₂)`, `C = T₁·2d·T₂`, `D = Z₁·2·Z₂`,
`X₃ = (B-A)(D-C)`, `Y₃ = (D+C)(B+A)`, `Z₃ = (D-C)(D+C)`, `T₃ = (B-A)(B+A)`,
with each output coordinate reduced modulo `p`. -/
def edwardsAdd (P Q : ExtPt) : ExtPt :=
  let A := (P.Y - P.X) * (Q.Y - Q.X)
  let B := (P.Y + P.X) * (Q.Y + Q.X)
  let C := P.T * EDWARDS_D2.ival * Q.T
  let D := P.Z * 2 * Q.Z
  ⟨(B - A) * (D - C) % pInt,
   (D + C) * (B + A) % pInt,
   (D - C) * (D + C) % pInt,
   (B - A) * (B + A) % pInt⟩

/-- Modelled from the spec: doubling, via the unified addition formula
applied to `(P, P)` (the spec states the unified formulas are valid for
doublings, so no separate doubling circuit is needed for the group law). -/
def edwardsDouble (P : ExtPt) : ExtPt := edwardsAdd P P

/-- Modelled from the spec: `n`-fold scalar multiple of `P` under the group
law, `smul 0 P = identity` and `smul (n+1) P = smul n P + P`. -/
def smul : ℕ → ExtPt → ExtPt
  | 0, _ => identityExt
  | n + 1, P => edwardsAdd (smul n P) P

instance (P : ExtPt) : Decidable (onCurve P) := by
  unfold onCurve; infer_instance

instance (P : ExtPt) : Decidable (tInvariant P) := by
  unfold tInvariant; infer_instance

instance (P : ExtPt) : Decidable (zNonzero P) := by
  unfold zNonzero; infer_instance

instance (P : ExtPt) : Decidable (wellFormed P) := by
  unfold wellFormed; infer_instance

instance (P Q : ExtPt) : Decidable (extEq P Q) := by
  unfold extEq; infer_instance

/-- Every limb array that appears as or inside a constant in the file:
the 8 standalone field constants, then the coordinates of the basepoint and
of the 8 torsion points. -/
def allConstLimbArrays : List FieldElement64 :=
  [EDWARDS_D, EDWARDS_D2, SQRT_AD_MINUS_ONE, INVSQRT_A_MINUS_D, SQRT_M1,
   MONTGOMERY_A, APLUS2_OVER_FOUR, SQRT_MINUS_APLUS2]
    ++ ([ED25519_BASEPOINT_POINT] ++ List.ofFn EIGHT_TORSION).flatMap
        (fun P => [P.X, P.Y, P.Z, P.T])

/-- Canonical reduction of a limb array: every limb strictly below `2^51`
and the denoted integer strictly below `p`. -/
def canonical (x : FieldElement64) : Prop :=
  x.l0 < 2 ^ 51 ∧ x.l1 < 2 ^ 51 ∧ x.l2 < 2 ^ 51 ∧ x.l3 < 2 ^ 51
    ∧ x.l4 < 2 ^ 51 ∧ x.val < p

instance (x : FieldElement64) : Decidable (canonical x) := by
  unfold canonical; infer_instance

end Curve25519

namespace Curve25519

/-- Claim C1: `EDWARDS_D2` denotes `2 * EDWARDS_D mod p` in the 51-bit limb
radix with `p = 2^255 - 19`. -/
theorem C1_edwards_d2_is_twice_d :
    EDWARDS_D2.val = (2 * EDWARDS_D.val) % p := by decide

/-- Claim C3: the square of `SQRT_M1` is congruent to `-1` modulo
`p = 2^255 - 19`. -/
theorem C3_sqrt_m1_squares_to_minus_one :
    (SQRT_M1.val * SQRT_M1.val + 1) % p = 0 := by decide

/-- Claim C9: the basepoint has affine `y = 4/5`, i.e.
`5 * Y ≡ 4 * Z (mod p)` for its limb arrays, with `Z = 1`. -/
theorem C9_basepoint_y_is_four_fifths :
    (5 * ED25519_BASEPOINT_POINT.Y.val) % p
      = (4 * ED25519_BASEPOINT_POINT.Z.val) % p := by decide

/-- Claim C10: `EDWARDS_D` denotes `-121665/121666 mod p`, i.e.
`121666 * EDWARDS_D + 121665 ≡ 0 (mod p)`. -/
theorem C10_edwards_d_value :
    (121666 * EDWARDS_D.val + 121665) % p = 0 := by decide

/-- Claim C2: every `ExtendedPoint` constant in the file — the basepoint and
all 8 entries of `EIGHT_TORSION` — lies on `-x² + y² = 1 + d·x²·y²`
(`d = EDWARDS_D`, projectively), satisfies `X·Y ≡ Z·T (mod p)`, and has
nonzero `Z`. -/
theorem C2_constant_points_well_formed :
    wellFormed ED25519_BASEPOINT_POINT.toExt
      ∧ ∀ i : Fin 8, wellFormed (EIGHT_TORSION i).toExt := by decide

/-- Claim C7: the derived curve constants satisfy their defining relations
modulo `p`, with `a = -1`, `d = EDWARDS_D`, `A = MONTGOMERY_A = 486662`:
`4·APLUS2_OVER_FOUR ≡ A + 2`, `SQRT_AD_MINUS_ONE² ≡ a·d - 1`,
`INVSQRT_A_MINUS_D²·(a - d) ≡ 1`, and `SQRT_MINUS_APLUS2² ≡ -(A + 2)`. -/
theorem C7_derived_constants_relations :
    (4 * APLUS2_OVER_FOUR.ival - (MONTGOMERY_A.ival + 2)) % pInt = 0
      ∧ (SQRT_AD_MINUS_ONE.ival ^ 2 - (-EDWARDS_D.ival - 1)) % pInt = 0
      ∧ (INVSQRT_A_MINUS_D.ival ^ 2 * (-1 - EDWARDS_D.ival) - 1) % pInt = 0
      ∧ (SQRT_MINUS_APLUS2.ival ^ 2 + (MONTGOMERY_A.ival + 2)) % pInt = 0 := by
  decide

/-- Claim C4: `EIGHT_TORSION i` equals `i · EIGHT_TORSION 1` under the group
law (projective-ratio equality); `EIGHT_TORSION 1` has exact order 8
(`8·P` is the identity but `4·P` is not); and `EIGHT_TORSION 0` is the
identity point `(0, 1, 1, 0)`. -/
theorem C4_torsion_table_is_multiples_of_generator :
    (∀ i : Fin 8,
        extEq (EIGHT_TORSION i).toExt (smul i.val (EIGHT_TORSION 1).toExt))
      ∧ extEq (smul 8 (EIGHT_TORSION 1).toExt) identityExt
      ∧ ¬ extEq (smul 4 (EIGHT_TORSION 1).toExt) identityExt
      ∧ (EIGHT_TORSION 0).toExt = identityExt := by decide

/-- Claim C5: the group-law sum of `EIGHT_TORSION i` and `EIGHT_TORSION j`
equals `EIGHT_TORSION (i + j mod 8)` under projective-ratio equality. -/
theorem C5_torsion_addition_table :
    ∀ i j : Fin 8,
      extEq (edwardsAdd (EIGHT_TORSION i).toExt (EIGHT_TORSION j).toExt)
        (EIGHT_TORSION (i + j)).toExt := by decide

/-- Claim C6: tripled doubling of every `EIGHT_TORSION` entry is the
identity (each order divides 8); `EIGHT_TORSION 4` has order exactly 2;
`EIGHT_TORSION 2` has order exactly 4. -/
theorem C6_torsion_orders :
    (∀ i : Fin 8,
        extEq (edwardsDouble (edwardsDouble (edwardsDouble
          (EIGHT_TORSION i).toExt))) identityExt)
      ∧ extEq (edwardsDouble (EIGHT_TORSION 4).toExt) identityExt
      ∧ ¬ extEq (EIGHT_TORSION 4).toExt identityExt
      ∧ extEq (edwardsDouble (edwardsDouble (EIGHT_TORSION 2).toExt))
          identityExt
      ∧ ¬ extEq (edwardsDouble (EIGHT_TORSION 2).toExt) identityExt := by
  decide

/-- Claim C8: every `FieldElement64` limb array appearing as or inside a
constant in this file is canonically reduced: each limb is below `2^51`
and the denoted integer is below `p = 2^255 - 19`. -/
theorem C8_constants_canonical :
    ∀ x ∈ allConstLimbArrays, canonical x := by decide

/-- Witness for C8 at the concrete element `EDWARDS_D`. -/
theorem C8_constants_canonical_witness :
    EDWARDS_D ∈ allConstLimbArrays ∧ canonical EDWARDS_D :=
  ⟨by decide, C8_constants_canonical EDWARDS_D (by decide)⟩

end Curve25519
